import Mathlib

/-!
Shallow embedding of `src/MPLAnimator.py` (class `Animator`).

The animator's in-memory state (the Qt widgets it reads and writes, the
cache-directory listing, the `prerendered` flag, the registered frame count)
is modelled by the structure `AnimatorState`.  Calls into external
collaborators (the user's draw routine `frame_cb`, the click routine
`click_cb`, matplotlib's `savefig`, Qt's pixmap loading and widget calls,
`os.remove`) are recorded as an ordered trace of `Effect`s; filesystem writes
are additionally reflected in the state's directory listing.  Each Python
method becomes a Lean function `AnimatorState → ... → AnimatorState × List Effect`.
-/

namespace MPLAnimator

/-! ### Decimal rendering of frame indices

Python's `'{}'.format(i)` renders a nonnegative integer as its base-10
numeral, most significant digit first, with `0` rendered as `"0"`.
`decAux` is that rendering as a digit list, written with a fuel argument so
that it is structurally recursive (fuel `n + 1` always suffices for `n`). -/

def decAux : Nat → Nat → List Nat
  | 0, _ => []
  | fuel + 1, n => if n < 10 then [n] else decAux fuel (n / 10) ++ [n % 10]

/-- The base-10 digit list of `n`, most significant first (`0` gives `[0]`). -/
def pyDigits (n : Nat) : List Nat := decAux (n + 1) n

/-- `'{}'.format(i)` for a nonnegative integer `i`. -/
def decStr (n : Nat) : String := String.mk ((pyDigits n).map Nat.digitChar)

/-- Basename of the image that `prerender` saves for frame `i` and that
`visualize` loads in cached mode: the `'{}.png'.format(i)` part of the
source's `'{}/{}.png'.format(self.dir, i)`. -/
def fname (i : Nat) : String := decStr i ++ ".png"

/-- Full path `'{}/{}.png'.format(dir, i)` used by `savefig` and `QPixmap`. -/
def imgPath (dir : String) (i : Nat) : String := dir ++ "/" ++ fname i

/-! ### State, effects and Python truthiness -/

/-- The two widgets of the stacked layout built in `initUI`: `self.label`
(the still-image view) and `self.canvas` (the live matplotlib figure). -/
inductive Widget
  | label
  | canvas
deriving DecidableEq, Repr

/-- One observable call into an external collaborator, in program order. -/
inductive Effect
  /-- `self.frame_cb(i)` — the user's draw routine. -/
  | frameCb (i : Nat)
  /-- `plt.savefig(path)`. -/
  | savefig (path : String)
  /-- `QtGui.QPixmap(path)` — loading a still image from disk. -/
  | loadPixmap (path : String)
  /-- `self.label.setPixmap(pm)`. -/
  | setPixmap
  /-- `self.canvas.draw()`. -/
  | canvasDraw
  /-- `self.stack.setCurrentWidget(w)`. -/
  | setCurrentWidget (w : Widget)
  /-- `self.click_cb(**event.__dict__)` — the event's attribute dictionary is
  forwarded verbatim as keyword arguments. -/
  | clickCb (kwargs : List (String × Int))
  /-- `os.remove(path)`. -/
  | removeFile (path : String)
deriving DecidableEq, Repr

/-- The in-memory state of one `Animator` instance.

`dirFiles` is the listing (`os.listdir`) of the cache directory `dir`;
`dirExists` records that the directory itself is present on disk;
`prerendered` is `self.prerendered` (`none` models Python `None`);
`maxFrame` is `self.max_frame`; `checked` is the pre-rendered checkbox state;
`sliderValue` is the scrub slider's value; `current` is the stacked layout's
current widget. -/
structure AnimatorState where
  dir : String
  dirExists : Bool
  dirFiles : List String
  prerendered : Option Bool
  maxFrame : Nat
  checked : Bool
  sliderValue : Nat
  current : Widget
deriving DecidableEq, Repr

/-- Python truthiness of `self.prerendered : Option Bool`:
`None` and `False` are falsy, `True` is truthy. -/
def truthy : Option Bool → Bool
  | some true => true
  | _ => false

/-- Effect of writing a file named `f` on a directory listing: an existing
name is overwritten in place, a new name appears in the listing. -/
def writeFile (fs : List String) (f : String) : List String :=
  if f ∈ fs then fs else fs ++ [f]

/-! ### The filesystem across instances (for construction / cache reuse) -/

/-- A filesystem fragment: existing directories, each with its file listing. -/
abbrev FileSystem : Type := List (String × List String)

/-- Directory lookup by exact path. -/
def fsLookup : FileSystem → String → Option (List String)
  | [], _ => none
  | p :: rest, key => if p.1 = key then some p.2 else fsLookup rest key

/-- The persistent cache path `'.prerendered/' + name` chosen in `__init__`
when a name is supplied. -/
def cachePath (name : String) : String := ".prerendered/" ++ name

/-- `Animator.__init__` (lines 28–45), restricted to what the claims observe:
widget construction in `initUI` yields the initial widget state (the stacked
layout shows `label`, the first widget added; the checkbox starts unchecked;
the slider starts at 0), `self.prerendered = None`, and the cache directory
is resolved.  With a name, the directory is `'.prerendered/' + name`,
created (empty) only when missing; without a name, `tempfile` supplies a
fresh empty temporary directory whose path is passed here as `tmpdirName`.
`max_frame` is unset until `setFrameCallback`; it is modelled as 0. -/
def initAnimator (fs : FileSystem) (name : Option String) (tmpdirName : String) :
    FileSystem × AnimatorState :=
  match name with
  | none =>
      (fs ++ [(tmpdirName, [])],
       { dir := tmpdirName, dirExists := true, dirFiles := [],
         prerendered := none, maxFrame := 0, checked := false,
         sliderValue := 0, current := Widget.label })
  | some n =>
      let dir := cachePath n
      match fsLookup fs dir with
      | none =>
          (fs ++ [(dir, [])],
           { dir := dir, dirExists := true, dirFiles := [],
             prerendered := none, maxFrame := 0, checked := false,
             sliderValue := 0, current := Widget.label })
      | some files =>
          (fs,
           { dir := dir, dirExists := true, dirFiles := files,
             prerendered := none, maxFrame := 0, checked := false,
             sliderValue := 0, current := Widget.label })

/-- Persist an instance's directory listing back into the filesystem view
(the instance only ever touches its own directory `s.dir`). -/
def writeBack (fs : FileSystem) (s : AnimatorState) : FileSystem :=
  fs.map fun p => if p.1 = s.dir then (p.1, s.dirFiles) else p

/-! ### The `Animator` methods -/

/-- `setFrameCallback(frame_cb, max_frame)`: registers the frame count
(the draw routine itself appears only as `Effect.frameCb` emissions; the
`slider.setMaximum(max_frame - 1)` call only constrains future UI input and
is not otherwise observed by the claims). -/
def setFrameCallback (s : AnimatorState) (maxFrame : Nat) : AnimatorState :=
  { s with maxFrame := maxFrame }

/-- One iteration of the `prerender` loop body (lines 108–111):
`self.frame_cb(i)` then `plt.savefig('{}/{}.png'.format(self.dir, i))`,
which creates basename `fname i` in the directory. -/
def prerenderStep (acc : AnimatorState × List Effect) (i : Nat) :
    AnimatorState × List Effect :=
  ({ acc.1 with dirFiles := writeFile acc.1.dirFiles (fname i) },
   acc.2 ++ [Effect.frameCb i, Effect.savefig (imgPath acc.1.dir i)])

/-- `prerender()` (lines 104–111): if `len(os.listdir(self.dir)) == 0`,
render and save every frame `0 .. max_frame - 1` in order; otherwise do
nothing.  (The `print` status lines are console text, not modelled.) -/
def prerender (s : AnimatorState) : AnimatorState × List Effect :=
  if s.dirFiles.length = 0 then (List.range s.maxFrame).foldl prerenderStep (s, [])
  else (s, [])

/-- `visualize(i=None)` (lines 120–142). -/
def visualize (s : AnimatorState) (io : Option Nat) : AnimatorState × List Effect :=
  let i := io.getD s.sliderValue
  if s.checked then
    let p := if truthy s.prerendered then (s, ([] : List Effect)) else prerender s
    let w :=
      if p.1.current ≠ Widget.label then
        ({ p.1 with current := Widget.label }, [Effect.setCurrentWidget Widget.label])
      else (p.1, ([] : List Effect))
    (w.1, p.2 ++ w.2 ++ [Effect.loadPixmap (imgPath s.dir i), Effect.setPixmap])
  else
    let w :=
      if s.current ≠ Widget.canvas then
        ({ s with current := Widget.canvas }, [Effect.setCurrentWidget Widget.canvas])
      else (s, ([] : List Effect))
    (w.1, w.2 ++ [Effect.frameCb i, Effect.canvasDraw])

/-- `handleCanvasClick(event)` (lines 114–117): forward the event's
attribute dictionary to the click routine as keyword arguments, then
`self.visualize()` with no argument. -/
def handleCanvasClick (s : AnimatorState) (eventDict : List (String × Int)) :
    AnimatorState × List Effect :=
  let v := visualize s none
  (v.1, Effect.clickCb eventDict :: v.2)

/-- `clear()` (lines 145–149): `os.remove(self.dir + '/' + file)` for every
entry of `os.listdir(self.dir)`; the directory itself is untouched. -/
def clear (s : AnimatorState) : AnimatorState × List Effect :=
  ({ s with dirFiles := [] },
   s.dirFiles.map fun f => Effect.removeFile (s.dir ++ "/" ++ f))

/-- Toggling the pre-rendered checkbox.  `initUI` (lines 75–77) creates the
checkbox and adds it to the layout but connects no handler to it, so a
toggle changes the checkbox state and nothing else. -/
def setChecked (s : AnimatorState) (b : Bool) : AnimatorState × List Effect :=
  ({ s with checked := b }, [])

/-- `slider.setValue(v)`: Qt updates the value and, when it changed, emits
`valueChanged(v)`, which `initUI` connected to `visualize` (line 72). -/
def setSliderValue (s : AnimatorState) (v : Nat) : AnimatorState × List Effect :=
  if s.sliderValue = v then (s, [])
  else
    let s1 := { s with sliderValue := v }
    visualize s1 (some v)

/-- `run(clear=False, prerendered=True, initialFrame=0)` (lines 152–175):
optional `clear()`, optional `prerender()`, set `self.prerendered` and the
checkbox to the `prerendered` argument, show the window (UI runtime, not
modelled), `visualize(initialFrame)`, `slider.setValue(initialFrame)`,
then block in the Qt event loop. -/
def run (s : AnimatorState) (clearArg prerenderedArg : Bool) (initialFrame : Nat) :
    AnimatorState × List Effect :=
  let c := if clearArg then clear s else (s, [])
  let p := if prerenderedArg then prerender c.1 else (c.1, [])
  let s3 := { p.1 with prerendered := some prerenderedArg, checked := prerenderedArg }
  let v := visualize s3 (some initialFrame)
  let sl := setSliderValue v.1 initialFrame
  (sl.1, c.2 ++ p.2 ++ v.2 ++ sl.2)

/-- The effect trace of a full pre-render of `n` frames: draw then save,
frame by frame, in increasing index order. -/
def prerenderTrace (dir : String) (n : Nat) : List Effect :=
  (List.range n).flatMap fun i => [Effect.frameCb i, Effect.savefig (imgPath dir i)]

/-- Modelled from the spec: the still-image loader (`QtGui.QPixmap`, an
external GUI-toolkit collaborator whose code is not part of this
repository) is, per the spec's error-handling design, an "image-not-found
failure at load time" when the requested file is absent.  `interpLoads`
replays an effect trace against the set of existing full file paths,
threading writes and removals, and reports the first failing load. -/
def interpLoads (paths : List String) : List Effect → Except String Unit
  | [] => Except.ok ()
  | Effect.loadPixmap p :: rest =>
      if p ∈ paths then interpLoads paths rest else Except.error p
  | Effect.savefig p :: rest => interpLoads (writeFile paths p) rest
  | Effect.removeFile p :: rest => interpLoads (paths.erase p) rest
  | _ :: rest => interpLoads paths rest

/-- Recognizer for click-routine invocations in an effect trace. -/
def isClickCb : Effect → Bool
  | Effect.clickCb _ => true
  | _ => false

/-- The filesystem after a first instance is constructed with `name`, is
given `N` frames, pre-renders, and its directory contents are persisted. -/
def firstRun (fs : FileSystem) (name : String) (N : Nat) : FileSystem :=
  writeBack (initAnimator fs (some name) "").1
    (prerender (setFrameCallback (initAnimator fs (some name) "").2 N)).1

/-! ### Concrete states used by the witnesses -/

/-- A freshly constructed named animator with 2 frames registered, cache
directory still empty, checkbox checked. -/
def sEmpty : AnimatorState :=
  { dir := ".prerendered/demo", dirExists := true, dirFiles := [],
    prerendered := none, maxFrame := 2, checked := true,
    sliderValue := 0, current := Widget.label }

/-- An animator whose cache directory holds a single stale image `0.png`
(checkbox checked, 2 frames registered). -/
def sNonempty : AnimatorState :=
  { dir := ".prerendered/demo", dirExists := true, dirFiles := ["0.png"],
    prerendered := none, maxFrame := 2, checked := true,
    sliderValue := 0, current := Widget.label }

/-- An animator in live mode (checkbox unchecked). -/
def sLive : AnimatorState :=
  { dir := ".prerendered/demo", dirExists := true, dirFiles := ["0.png"],
    prerendered := some true, maxFrame := 2, checked := false,
    sliderValue := 1, current := Widget.label }

/-! ### Sanity checks of the decimal rendering -/

example : decStr 0 = "0" := by decide
example : decStr 7 = "7" := by decide
example : decStr 137 = "137" := by decide
example : fname 12 = "12.png" := by decide
example : imgPath ".prerendered/demo" 3 = ".prerendered/demo/3.png" := by decide

/-! ### Injectivity of the per-frame file names -/

theorem decAux_lt_ten : ∀ (f n : Nat), n < f → ∀ d ∈ decAux f n, d < 10 := by
  intro f
  induction f with
  | zero => intro n h; omega
  | succ f ih =>
    intro n hn d hd
    unfold decAux at hd
    by_cases h10 : n < 10
    · rw [if_pos h10] at hd
      simp at hd
      omega
    · rw [if_neg h10] at hd
      rcases List.mem_append.1 hd with h | h
      · exact ih (n / 10) (by omega) d h
      · simp at h
        omega

theorem decAux_ne_nil : ∀ (f n : Nat), n < f → decAux f n ≠ [] := by
  intro f
  induction f with
  | zero => intro n h; omega
  | succ f _ =>
    intro n _
    unfold decAux
    by_cases h10 : n < 10
    · rw [if_pos h10]; simp
    · rw [if_neg h10]; simp

theorem decAux_inj : ∀ (f1 f2 m n : Nat), m < f1 → n < f2 →
    decAux f1 m = decAux f2 n → m = n := by
  intro f1
  induction f1 with
  | zero => intro f2 m n hm; omega
  | succ f1 ih =>
    intro f2 m n hm hn h
    cases f2 with
    | zero => omega
    | succ f2 =>
      unfold decAux at h
      by_cases hm10 : m < 10 <;> by_cases hn10 : n < 10
      · rw [if_pos hm10, if_pos hn10] at h
        simpa using h
      · rw [if_pos hm10, if_neg hn10] at h
        have dn : n / 10 < n := Nat.div_lt_self (by omega) (by omega)
        have hne := decAux_ne_nil f2 (n / 10) (by omega)
        cases hdx : decAux f2 (n / 10) with
        | nil => exact absurd hdx hne
        | cons a t => rw [hdx] at h; simp at h
      · rw [if_neg hm10, if_pos hn10] at h
        have dm : m / 10 < m := Nat.div_lt_self (by omega) (by omega)
        have hne := decAux_ne_nil f1 (m / 10) (by omega)
        cases hdx : decAux f1 (m / 10) with
        | nil => exact absurd hdx hne
        | cons a t => rw [hdx] at h; simp at h
      · rw [if_neg hm10, if_neg hn10] at h
        have hrev := congrArg List.reverse h
        simp at hrev
        have dm : m / 10 < m := Nat.div_lt_self (by omega) (by omega)
        have dn : n / 10 < n := Nat.div_lt_self (by omega) (by omega)
        have hdiv : m / 10 = n / 10 :=
          ih f2 (m / 10) (n / 10) (by omega) (by omega) hrev.2
        have hm' := Nat.div_add_mod m 10
        have hn' := Nat.div_add_mod n 10
        omega

theorem digitChar_inj_lt : ∀ d1, d1 < 10 → ∀ d2, d2 < 10 →
    Nat.digitChar d1 = Nat.digitChar d2 → d1 = d2 := by decide

theorem map_digitChar_inj : ∀ (l1 l2 : List Nat), (∀ d ∈ l1, d < 10) →
    (∀ d ∈ l2, d < 10) → l1.map Nat.digitChar = l2.map Nat.digitChar → l1 = l2 := by
  intro l1
  induction l1 with
  | nil =>
    intro l2 _ _ h
    cases l2 <;> simp_all
  | cons d1 t1 ih =>
    intro l2 h1 h2 h
    cases l2 with
    | nil => simp at h
    | cons d2 t2 =>
      simp at h
      have hd : d1 = d2 :=
        digitChar_inj_lt d1 (h1 d1 (by simp)) d2 (h2 d2 (by simp)) h.1
      have ht : t1 = t2 :=
        ih t2 (fun d hd => h1 d (by simp [hd])) (fun d hd => h2 d (by simp [hd])) h.2
      rw [hd, ht]

theorem fname_data_inj {m n : Nat} (hd : (fname m).data = (fname n).data) : m = n := by
  simp [fname, decStr, pyDigits] at hd
  exact decAux_inj (m + 1) (n + 1) m n (by omega) (by omega)
    (map_digitChar_inj _ _ (decAux_lt_ten (m + 1) m (by omega))
      (decAux_lt_ten (n + 1) n (by omega)) hd)

theorem fname_inj {m n : Nat} (h : fname m = fname n) : m = n :=
  fname_data_inj (congrArg String.data h)

theorem imgPath_inj {dir : String} {m n : Nat} (h : imgPath dir m = imgPath dir n) :
    m = n := by
  have hd := congrArg String.data h
  simp [imgPath] at hd
  exact fname_data_inj hd

/-! ### Behaviour of `prerender` -/

theorem prerenderLoop_eq (s0 : AnimatorState) (n : Nat) :
    (List.range n).foldl prerenderStep (s0, []) =
      ({ s0 with
          dirFiles := (List.range n).foldl (fun fs i => writeFile fs (fname i)) s0.dirFiles },
       prerenderTrace s0.dir n) := by
  induction n with
  | zero => simp [prerenderTrace]
  | succ n ih =>
    rw [List.range_succ, List.foldl_append, List.foldl_append, ih]
    simp [prerenderStep, prerenderTrace, List.range_succ]

theorem foldl_writeFile_range (n : Nat) :
    (List.range n).foldl (fun fs i => writeFile fs (fname i)) [] =
      (List.range n).map fname := by
  induction n with
  | zero => simp
  | succ n ih =>
    rw [List.range_succ, List.foldl_append, ih, List.map_append]
    simp only [List.foldl_cons, List.foldl_nil, List.map_cons, List.map_nil]
    unfold writeFile
    rw [if_neg]
    intro hmem
    rcases List.mem_map.1 hmem with ⟨j, hj, heq⟩
    have : j = n := fname_inj heq
    simp at hj
    omega

theorem prerender_empty_eq (s : AnimatorState) (h : s.dirFiles = []) :
    prerender s =
      ({ s with dirFiles := (List.range s.maxFrame).map fname },
       prerenderTrace s.dir s.maxFrame) := by
  unfold prerender
  rw [if_pos (by simp [h]), prerenderLoop_eq]
  rw [h, foldl_writeFile_range]

theorem prerender_nonempty_eq (s : AnimatorState) (h : s.dirFiles ≠ []) :
    prerender s = (s, []) := by
  unfold prerender
  rw [if_neg (by simp [h])]

/-- `prerender` touches only the directory listing. -/
theorem prerender_fst_eq (s : AnimatorState) :
    (prerender s).1 = { s with dirFiles := (prerender s).1.dirFiles } := by
  by_cases h : s.dirFiles = []
  · rw [prerender_empty_eq s h]
  · rw [prerender_nonempty_eq s h]

theorem prerender_snd_cases (s : AnimatorState) :
    (prerender s).2 = prerenderTrace s.dir s.maxFrame ∨ (prerender s).2 = [] := by
  by_cases h : s.dirFiles = []
  · exact Or.inl (by rw [prerender_empty_eq s h])
  · exact Or.inr (by rw [prerender_nonempty_eq s h])

theorem mem_prerenderTrace (d : String) (n : Nat) (e : Effect)
    (h : e ∈ prerenderTrace d n) :
    (∃ i, i < n ∧ e = Effect.frameCb i) ∨
      (∃ i, i < n ∧ e = Effect.savefig (imgPath d i)) := by
  simp [prerenderTrace] at h
  rcases h with ⟨i, hi, he⟩
  rcases he with he | he
  · exact Or.inl ⟨i, hi, he⟩
  · exact Or.inr ⟨i, hi, he⟩

/-! ### Behaviour of `visualize` -/

/-- `visualize()` with no argument is `visualize(slider.value())`. -/
theorem visualize_none_eq (s : AnimatorState) :
    visualize s none = visualize s (some s.sliderValue) := rfl

/-- Cached branch of `visualize` in closed form. -/
theorem visualize_cached_eq (s : AnimatorState) (i : Nat) (hc : s.checked = true) :
    visualize s (some i) =
      ({ (if truthy s.prerendered then s else (prerender s).1) with
          current := Widget.label },
       (if truthy s.prerendered then [] else (prerender s).2) ++
         ((if s.current = Widget.label then [] else [Effect.setCurrentWidget Widget.label]) ++
           [Effect.loadPixmap (imgPath s.dir i), Effect.setPixmap])) := by
  have hcur : (prerender s).1.current = s.current := by rw [prerender_fst_eq s]
  have heta : ∀ (t : AnimatorState) (w : Widget), t.current = w →
      { t with current := w } = t := by
    intro t w ht
    cases t
    simp_all
  unfold visualize
  simp only [Option.getD_some, hc, if_true]
  by_cases hp : truthy s.prerendered <;> by_cases hw : s.current = Widget.label <;>
    simp_all [heta]
  · cases s
    simp_all
  · generalize (prerender s).1 = t at hcur ⊢
    cases t
    simp_all

/-- Live branch of `visualize` in closed form. -/
theorem visualize_live_eq (s : AnimatorState) (i : Nat) (hc : s.checked = false) :
    visualize s (some i) =
      ({ s with current := Widget.canvas },
       (if s.current = Widget.canvas then [] else [Effect.setCurrentWidget Widget.canvas]) ++
         [Effect.frameCb i, Effect.canvasDraw]) := by
  have heta : ∀ (t : AnimatorState) (w : Widget), t.current = w →
      { t with current := w } = t := by
    intro t w ht
    cases t
    simp_all
  unfold visualize
  simp only [Option.getD_some, hc, Bool.false_eq_true, if_false]
  by_cases hw : s.current = Widget.canvas <;> simp_all [heta]
  cases s
  simp_all

theorem clickCb_not_mem_prerenderTrace (d : String) (n : Nat) (kw : List (String × Int)) :
    Effect.clickCb kw ∉ prerenderTrace d n := by
  intro hmem
  rcases mem_prerenderTrace d n _ hmem with ⟨i, _, he⟩ | ⟨i, _, he⟩ <;> simp at he

theorem clickCb_not_mem_prerender_snd (s : AnimatorState) (kw : List (String × Int)) :
    Effect.clickCb kw ∉ (prerender s).2 := by
  rcases prerender_snd_cases s with h | h <;> rw [h]
  · exact clickCb_not_mem_prerenderTrace _ _ _
  · simp

theorem clickCb_not_mem_visualize_some (s : AnimatorState) (i : Nat)
    (kw : List (String × Int)) : Effect.clickCb kw ∉ (visualize s (some i)).2 := by
  by_cases hc : s.checked = true
  · rw [visualize_cached_eq s i hc]
    by_cases hp : truthy s.prerendered <;> by_cases hw : s.current = Widget.label <;>
      simp [hp, hw, clickCb_not_mem_prerender_snd]
  · have hcf : s.checked = false := by simpa using hc
    rw [visualize_live_eq s i hcf]
    by_cases hw : s.current = Widget.canvas <;> simp [hw]

theorem clickCb_not_mem_visualize (s : AnimatorState) (io : Option Nat)
    (kw : List (String × Int)) : Effect.clickCb kw ∉ (visualize s io).2 := by
  cases io with
  | none => rw [visualize_none_eq]; exact clickCb_not_mem_visualize_some s _ kw
  | some i => exact clickCb_not_mem_visualize_some s i kw

theorem frameCb_not_mem_visualize_cached (s : AnimatorState) (i j : Nat)
    (hc : s.checked = true) (hne : s.dirFiles ≠ []) :
    Effect.frameCb j ∉ (visualize s (some i)).2 := by
  rw [visualize_cached_eq s i hc]
  have hpre := prerender_nonempty_eq s hne
  by_cases hp : truthy s.prerendered <;> by_cases hw : s.current = Widget.label <;>
    simp [hp, hw, hpre]

/-! ### Filesystem lemmas for construction and cache reuse -/

theorem fsLookup_append_of_none (fs : FileSystem) (k : String) (v : List String)
    (h : fsLookup fs k = none) : fsLookup (fs ++ [(k, v)]) k = some v := by
  induction fs with
  | nil => simp [fsLookup]
  | cons p rest ih =>
    simp only [List.cons_append, fsLookup] at h ⊢
    by_cases hp : p.1 = k
    · simp [hp] at h
    · simp only [if_neg hp] at h ⊢
      exact ih h

theorem fsLookup_writeBack (fs : FileSystem) (s : AnimatorState) :
    fsLookup (writeBack fs s) s.dir =
      (fsLookup fs s.dir).map fun _ => s.dirFiles := by
  induction fs with
  | nil => simp [writeBack, fsLookup]
  | cons p rest ih =>
    simp only [writeBack, List.map_cons] at ih ⊢
    by_cases hp : p.1 = s.dir
    · simp [fsLookup, hp]
    · simp only [fsLookup, if_neg hp, hp, if_false]
      exact ih

theorem initNamed_dir (fs : FileSystem) (n t : String) :
    (initAnimator fs (some n) t).2.dir = cachePath n := by
  unfold initAnimator
  cases h : fsLookup fs (cachePath n) <;> simp [h]

theorem fsLookup_initNamed (fs : FileSystem) (n t : String) :
    fsLookup (initAnimator fs (some n) t).1 (cachePath n) =
      some ((initAnimator fs (some n) t).2.dirFiles) := by
  unfold initAnimator
  cases h : fsLookup fs (cachePath n) with
  | none => simp [h, fsLookup_append_of_none fs _ [] h]
  | some files => simp [h]

theorem initNamed_of_lookup_none (fs : FileSystem) (n t : String)
    (h : fsLookup fs (cachePath n) = none) :
    initAnimator fs (some n) t =
      (fs ++ [(cachePath n, [])],
       { dir := cachePath n, dirExists := true, dirFiles := [],
         prerendered := none, maxFrame := 0, checked := false,
         sliderValue := 0, current := Widget.label }) := by
  unfold initAnimator
  simp [h]

theorem initNamed_of_lookup_some (fs : FileSystem) (n t : String) (files : List String)
    (h : fsLookup fs (cachePath n) = some files) :
    initAnimator fs (some n) t =
      (fs,
       { dir := cachePath n, dirExists := true, dirFiles := files,
         prerendered := none, maxFrame := 0, checked := false,
         sliderValue := 0, current := Widget.label }) := by
  unfold initAnimator
  simp [h]

/-! ### Further helper lemmas -/

theorem string_append_left_cancel {a b c : String} (h : a ++ b = a ++ c) : b = c := by
  have hd := congrArg String.data h
  simp at hd
  cases b
  cases c
  simp_all

/-- `prerender` reads none of the widget state, so its trace is unaffected
by the checkbox. -/
theorem prerender_checked_snd (s : AnimatorState) (c : Bool) :
    (prerender { s with checked := c }).2 = (prerender s).2 := by
  by_cases h : s.dirFiles = []
  · rw [prerender_empty_eq { s with checked := c } (by exact h),
      prerender_empty_eq s h]
  · rw [prerender_nonempty_eq { s with checked := c } (by exact h),
      prerender_nonempty_eq s h]

theorem visualize_fst_prerendered (s : AnimatorState) (io : Option Nat) :
    (visualize s io).1.prerendered = s.prerendered := by
  have hsome : ∀ i, (visualize s (some i)).1.prerendered = s.prerendered := by
    intro i
    by_cases hc : s.checked = true
    · rw [visualize_cached_eq s i hc]
      by_cases hp : truthy s.prerendered <;> simp [hp]
      rw [prerender_fst_eq s]
    · rw [visualize_live_eq s i (by simpa using hc)]
  cases io with
  | none => rw [visualize_none_eq]; exact hsome _
  | some i => exact hsome i

theorem setSliderValue_fst_prerendered (s : AnimatorState) (v : Nat) :
    (setSliderValue s v).1.prerendered = s.prerendered := by
  unfold setSliderValue
  by_cases h : s.sliderValue = v <;> simp [h, visualize_fst_prerendered]

theorem run_fst_prerendered (s : AnimatorState) (c p : Bool) (f : Nat) :
    (run s c p f).1.prerendered = some p := by
  unfold run
  simp [setSliderValue_fst_prerendered, visualize_fst_prerendered]

/-! ### The claims -/

/-- C1: for every registered frame count `N ≥ 1`, `prerender()` on an empty
cache directory invokes the draw routine once per index `i = 0, …, N-1` in
increasing order, saving `'<i>.png'` in the cache directory immediately
after each draw invocation, so that afterwards the directory contains
exactly `N` files, one per index. -/
theorem claim1_prerender_fills_empty_cache (s : AnimatorState)
    (_hN : 1 ≤ s.maxFrame) (hempty : s.dirFiles = []) :
    (prerender s).2 =
      ((List.range s.maxFrame).flatMap fun i =>
        [Effect.frameCb i, Effect.savefig (imgPath s.dir i)]) ∧
    (prerender s).1.dirFiles = (List.range s.maxFrame).map fname ∧
    (prerender s).1.dirFiles.length = s.maxFrame ∧
    (prerender s).1.dirFiles.Nodup := by
  rw [prerender_empty_eq s hempty]
  refine ⟨rfl, rfl, by simp, ?_⟩
  exact List.Nodup.map (fun a b h => fname_inj h) (List.nodup_range s.maxFrame)

theorem claim1_witness :
    (prerender sEmpty).2 =
      ((List.range sEmpty.maxFrame).flatMap fun i =>
        [Effect.frameCb i, Effect.savefig (imgPath sEmpty.dir i)]) ∧
    (prerender sEmpty).1.dirFiles = (List.range sEmpty.maxFrame).map fname ∧
    (prerender sEmpty).1.dirFiles.length = sEmpty.maxFrame ∧
    (prerender sEmpty).1.dirFiles.Nodup :=
  claim1_prerender_fills_empty_cache sEmpty (by decide) rfl

/-- C2: `prerender()` short-circuits on any non-empty cache directory: it
performs no draw invocations and no writes and leaves the state unchanged;
in particular a second call right after a successful first one does
nothing. -/
theorem claim2_prerender_short_circuit (s : AnimatorState) :
    (s.dirFiles ≠ [] → prerender s = (s, [])) ∧
    (s.dirFiles = [] → 1 ≤ s.maxFrame →
      prerender (prerender s).1 = ((prerender s).1, [])) := by
  constructor
  · exact fun h => prerender_nonempty_eq s h
  · intro h hN
    apply prerender_nonempty_eq
    rw [prerender_empty_eq s h]
    simp [List.range_eq_nil]
    omega

theorem claim2_witness :
    prerender sNonempty = (sNonempty, []) ∧
    prerender (prerender sEmpty).1 = ((prerender sEmpty).1, []) :=
  ⟨(claim2_prerender_short_circuit sNonempty).1 (by decide),
   (claim2_prerender_short_circuit sEmpty).2 rfl (by decide)⟩

/-- C3: with the checkbox checked at call time, `visualize(i)` triggers
`prerender()` exactly when the in-memory flag is not (yet) truthy, switches
the displayed widget to the still-image view if not already shown, and then
loads and displays `'<i>.png'` from the cache directory; when the directory
is non-empty (indices already cached) no draw-routine invocation occurs. -/
theorem claim3_visualize_cached (s : AnimatorState) (i : Nat)
    (hc : s.checked = true) :
    (visualize s (some i)).1.current = Widget.label ∧
    (visualize s (some i)).2 =
      (if truthy s.prerendered then [] else (prerender s).2) ++
        ((if s.current = Widget.label then []
          else [Effect.setCurrentWidget Widget.label]) ++
          [Effect.loadPixmap (imgPath s.dir i), Effect.setPixmap]) ∧
    (s.dirFiles ≠ [] → ∀ j, Effect.frameCb j ∉ (visualize s (some i)).2) := by
  refine ⟨?_, ?_, ?_⟩
  · rw [visualize_cached_eq s i hc]
  · rw [visualize_cached_eq s i hc]
  · intro hne j
    exact frameCb_not_mem_visualize_cached s i j hc hne

theorem claim3_witness :
    (visualize sNonempty (some 0)).1.current = Widget.label ∧
    (visualize sNonempty (some 0)).2 =
      (if truthy sNonempty.prerendered then [] else (prerender sNonempty).2) ++
        ((if sNonempty.current = Widget.label then []
          else [Effect.setCurrentWidget Widget.label]) ++
          [Effect.loadPixmap (imgPath sNonempty.dir 0), Effect.setPixmap]) ∧
    (sNonempty.dirFiles ≠ [] →
      ∀ j, Effect.frameCb j ∉ (visualize sNonempty (some 0)).2) :=
  claim3_visualize_cached sNonempty 0 rfl

/-- C4: with the checkbox unchecked at call time, `visualize(i)` switches
the displayed widget to the live canvas if not already shown, always
invokes the draw routine with `i`, then requests a canvas redraw; and
`visualize()` with no argument uses the slider's current value. -/
theorem claim4_visualize_live (s : AnimatorState) (i : Nat)
    (hc : s.checked = false) :
    (visualize s (some i)).1.current = Widget.canvas ∧
    (visualize s (some i)).2 =
      (if s.current = Widget.canvas then []
        else [Effect.setCurrentWidget Widget.canvas]) ++
        [Effect.frameCb i, Effect.canvasDraw] ∧
    visualize s none = visualize s (some s.sliderValue) := by
  refine ⟨?_, ?_, visualize_none_eq s⟩
  · rw [visualize_live_eq s i hc]
  · rw [visualize_live_eq s i hc]

theorem claim4_witness :
    (visualize sLive (some 0)).1.current = Widget.canvas ∧
    (visualize sLive (some 0)).2 =
      (if sLive.current = Widget.canvas then []
        else [Effect.setCurrentWidget Widget.canvas]) ++
        [Effect.frameCb 0, Effect.canvasDraw] ∧
    visualize sLive none = visualize sLive (some sLive.sliderValue) :=
  claim4_visualize_live sLive 0 rfl

/-- C5: `handleCanvasClick` forwards the pointer event's attribute
dictionary verbatim as keyword arguments to the click routine (a synthetic
event with fields `{x, y, button}` delivers exactly those fields by name),
then calls `visualize()` exactly once with no argument, i.e. redisplays the
slider's current frame. -/
theorem claim5_click_forwarding (s : AnimatorState) (ev : List (String × Int)) :
    handleCanvasClick s ev =
      ((visualize s (some s.sliderValue)).1,
        Effect.clickCb ev :: (visualize s (some s.sliderValue)).2) ∧
    (handleCanvasClick s ev).2.countP isClickCb = 1 := by
  constructor
  · unfold handleCanvasClick
    rw [visualize_none_eq]
  · unfold handleCanvasClick
    simp only [List.countP_cons, isClickCb, if_pos]
    have h0 : (visualize s none).2.countP isClickCb = 0 := by
      rw [List.countP_eq_zero]
      intro e he
      cases e <;> simp [isClickCb]
      case clickCb kw => exact absurd he (clickCb_not_mem_visualize s none kw)
    simp [h0, isClickCb]

/-- C6: `clear()` removes every file directly inside the cache directory
(non-recursively, via one `os.remove` per listed file), leaves the
directory itself in place, and a subsequent `prerender()` sees an empty
directory and fully repopulates it with one image per frame index. -/
theorem claim6_clear_empties_directory (s : AnimatorState) :
    (clear s).1 = { s with dirFiles := [] } ∧
    (clear s).2 = s.dirFiles.map (fun f => Effect.removeFile (s.dir ++ "/" ++ f)) ∧
    (clear s).1.dirExists = s.dirExists ∧
    (1 ≤ s.maxFrame →
      (prerender (clear s).1).1.dirFiles = (List.range s.maxFrame).map fname ∧
      (prerender (clear s).1).1.dirFiles.length = s.maxFrame) := by
  refine ⟨rfl, rfl, rfl, ?_⟩
  intro _
  rw [prerender_empty_eq (clear s).1 rfl]
  exact ⟨rfl, by simp [clear]⟩

theorem claim6_witness :
    (clear sNonempty).1 = { sNonempty with dirFiles := [] } ∧
    (clear sNonempty).2 =
      sNonempty.dirFiles.map (fun f => Effect.removeFile (sNonempty.dir ++ "/" ++ f)) ∧
    (clear sNonempty).1.dirExists = sNonempty.dirExists ∧
    ((prerender (clear sNonempty).1).1.dirFiles =
        (List.range sNonempty.maxFrame).map fname ∧
      (prerender (clear sNonempty).1).1.dirFiles.length = sNonempty.maxFrame) :=
  ⟨(claim6_clear_empties_directory sNonempty).1,
   (claim6_clear_empties_directory sNonempty).2.1,
   (claim6_clear_empties_directory sNonempty).2.2.1,
   (claim6_clear_empties_directory sNonempty).2.2.2 (by decide)⟩

/-- C7: `clear()` changes no in-memory state of the animator beyond the
directory listing — in particular it leaves `self.prerendered` unchanged,
so the lazy-prerender check in `visualize()` behaves exactly as before;
none of `visualize`, `prerender`, `handleCanvasClick`, the checkbox toggle
or the slider ever change that flag, and `run()` is the operation that sets
it. -/
theorem claim7_clear_preserves_flag (s : AnimatorState) :
    (clear s).1.prerendered = s.prerendered ∧
    truthy (clear s).1.prerendered = truthy s.prerendered ∧
    (∀ io, (visualize s io).1.prerendered = s.prerendered) ∧
    (prerender s).1.prerendered = s.prerendered ∧
    (∀ ev, (handleCanvasClick s ev).1.prerendered = s.prerendered) ∧
    (∀ b, (setChecked s b).1.prerendered = s.prerendered) ∧
    (∀ v, (setSliderValue s v).1.prerendered = s.prerendered) ∧
    (∀ c p f, (run s c p f).1.prerendered = some p) := by
  refine ⟨rfl, rfl, fun io => visualize_fst_prerendered s io, ?_, ?_, fun b => rfl,
    fun v => setSliderValue_fst_prerendered s v, fun c p f => run_fst_prerendered s c p f⟩
  · rw [prerender_fst_eq s]
  · intro ev
    unfold handleCanvasClick
    exact visualize_fst_prerendered s none

/-- C8: in cached mode, `visualize(i)` for an index whose file `'<i>.png'`
is missing from a non-empty (stale or partial) cache directory attempts the
image load unconditionally and without any handler, and the load of the
missing file is the failure that surfaces. -/
theorem claim8_missing_image_hard_failure (s : AnimatorState) (i : Nat)
    (hc : s.checked = true) (hne : s.dirFiles ≠ []) (hmiss : fname i ∉ s.dirFiles) :
    interpLoads (s.dirFiles.map fun f => s.dir ++ "/" ++ f)
        (visualize s (some i)).2 = Except.error (imgPath s.dir i) := by
  have hnotmem : imgPath s.dir i ∉ s.dirFiles.map fun f => s.dir ++ "/" ++ f := by
    intro hmem
    rcases List.mem_map.1 hmem with ⟨f, hf, heq⟩
    have h2 : s.dir ++ "/" ++ f = s.dir ++ "/" ++ fname i := by
      simpa [imgPath] using heq
    have : f = fname i := string_append_left_cancel h2
    exact hmiss (this ▸ hf)
  rw [visualize_cached_eq s i hc, prerender_nonempty_eq s hne]
  by_cases hp : truthy s.prerendered <;> by_cases hw : s.current = Widget.label <;>
    simp [hp, hw, interpLoads, hnotmem]

theorem claim8_witness :
    interpLoads (sNonempty.dirFiles.map fun f => sNonempty.dir ++ "/" ++ f)
        (visualize sNonempty (some 5)).2 =
      Except.error (imgPath sNonempty.dir 5) :=
  claim8_missing_image_hard_failure sNonempty 5 rfl (by decide) (by decide)

/-- C9: constructing a named animator resolves the cache directory to the
fixed relative path `'.prerendered/' + name` (`./.prerendered/<name>`),
creating the directory only when missing; a second instance constructed
with the same name after the first has fully pre-rendered `N ≥ 1` frames
resolves to the same, pre-populated directory, and its `prerender()`
short-circuits to a no-op. -/
theorem claim9_same_name_reuses_cache (fs : FileSystem) (name : String) (N : Nat)
    (hN : 1 ≤ N) (hfresh : (initAnimator fs (some name) "").2.dirFiles = []) :
    (initAnimator fs (some name) "").2.dir = cachePath name ∧
    (fsLookup fs (cachePath name) = none →
      (initAnimator fs (some name) "").1 = fs ++ [(cachePath name, [])]) ∧
    (∀ files, fsLookup fs (cachePath name) = some files →
      (initAnimator fs (some name) "").1 = fs) ∧
    (initAnimator (firstRun fs name N) (some name) "").2.dir =
      (initAnimator fs (some name) "").2.dir ∧
    (initAnimator (firstRun fs name N) (some name) "").2.dirFiles =
      (List.range N).map fname ∧
    (initAnimator (firstRun fs name N) (some name) "").2.dirFiles ≠ [] ∧
    prerender (setFrameCallback (initAnimator (firstRun fs name N) (some name) "").2 N) =
      (setFrameCallback (initAnimator (firstRun fs name N) (some name) "").2 N, []) := by
  have hdir1 := initNamed_dir fs name ""
  -- the state of the first instance after frame registration
  have hs1dir : (setFrameCallback (initAnimator fs (some name) "").2 N).dir =
      cachePath name := hdir1
  have hs1files : (setFrameCallback (initAnimator fs (some name) "").2 N).dirFiles = [] :=
    hfresh
  have hs1max : (setFrameCallback (initAnimator fs (some name) "").2 N).maxFrame = N := rfl
  have hpre := prerender_empty_eq _ hs1files
  have hpfiles : (prerender (setFrameCallback (initAnimator fs (some name) "").2 N)).1.dirFiles =
      (List.range N).map fname := by rw [hpre]; simp [setFrameCallback]
  have hpdir : (prerender (setFrameCallback (initAnimator fs (some name) "").2 N)).1.dir =
      cachePath name := by rw [hpre]; exact hdir1
  -- what the second construction finds on disk
  have hlook2 : fsLookup (firstRun fs name N) (cachePath name) =
      some ((List.range N).map fname) := by
    unfold firstRun
    rw [← hpdir, fsLookup_writeBack, hpdir, fsLookup_initNamed fs name ""]
    simp [hpfiles]
  have hsecond := initNamed_of_lookup_some (firstRun fs name N) name ""
    ((List.range N).map fname) hlook2
  have hne2 : ((List.range N).map fname) ≠ [] := by
    simp [List.range_eq_nil]
    omega
  refine ⟨hdir1, ?_, ?_, ?_, ?_, ?_, ?_⟩
  · intro h
    rw [initNamed_of_lookup_none fs name "" h]
  · intro files h
    rw [initNamed_of_lookup_some fs name "" files h]
  · rw [hsecond, hdir1]
  · rw [hsecond]
  · rw [hsecond]
    exact hne2
  · apply prerender_nonempty_eq
    rw [hsecond]
    exact hne2

theorem claim9_witness :
    (initAnimator [] (some "demo") "").2.dir = cachePath "demo" ∧
    (fsLookup [] (cachePath "demo") = none →
      (initAnimator [] (some "demo") "").1 = [] ++ [(cachePath "demo", [])]) ∧
    (∀ files, fsLookup [] (cachePath "demo") = some files →
      (initAnimator [] (some "demo") "").1 = []) ∧
    (initAnimator (firstRun [] "demo" 2) (some "demo") "").2.dir =
      (initAnimator [] (some "demo") "").2.dir ∧
    (initAnimator (firstRun [] "demo" 2) (some "demo") "").2.dirFiles =
      (List.range 2).map fname ∧
    (initAnimator (firstRun [] "demo" 2) (some "demo") "").2.dirFiles ≠ [] ∧
    prerender (setFrameCallback (initAnimator (firstRun [] "demo" 2) (some "demo") "").2 2) =
      (setFrameCallback (initAnimator (firstRun [] "demo" 2) (some "demo") "").2 2, []) :=
  claim9_same_name_reuses_cache [] "demo" 2 (by decide) rfl

/-- C10: toggling the pre-rendered checkbox has no connected handler, so by
itself it performs no work and changes nothing but the checkbox state; the
mode branch is read from the checkbox at the next `visualize` call: after
unchecking, `visualize(i)` runs the live branch, and after checking it runs
the cached branch. -/
theorem claim10_checkbox_inert (s : AnimatorState) (b : Bool) (i : Nat) :
    setChecked s b = ({ s with checked := b }, []) ∧
    (visualize (setChecked s false).1 (some i)).2 =
      (if s.current = Widget.canvas then []
        else [Effect.setCurrentWidget Widget.canvas]) ++
        [Effect.frameCb i, Effect.canvasDraw] ∧
    (visualize (setChecked s true).1 (some i)).2 =
      (if truthy s.prerendered then [] else (prerender s).2) ++
        ((if s.current = Widget.label then []
          else [Effect.setCurrentWidget Widget.label]) ++
          [Effect.loadPixmap (imgPath s.dir i), Effect.setPixmap]) := by
  refine ⟨rfl, ?_, ?_⟩
  · rw [show (setChecked s false).1 = { s with checked := false } from rfl,
      visualize_live_eq { s with checked := false } i rfl]
  · rw [show (setChecked s true).1 = { s with checked := true } from rfl,
      visualize_cached_eq { s with checked := true } i rfl]
    simp [prerender_checked_snd]

end MPLAnimator
